import Mathlib

/-
Verification of the message-classification core of kbchatbox (src/keybase.rs).

The development shallowly embeds the pure protocol layer of `keybase.rs`:
the JSON value model (serde_json::Value with its BTreeMap-backed, key-sorted
objects), the wire codec (`parse_json` and the compact serialization used by
`handle_next_call`), and the message classifier (`get_msg_type`,
`to_keybase_msg`, `parse_chat_msg`, `create_chat_msg_reply`,
`create_chat_msg_list_reply`, `create_channel_list_reply`) together with the
request builders and the listener loop's per-line control-flow decision.
Machine integers are modelled as `Int` with the explicit i64 range where the
source parses integers; fallible code returns `Except`.
-/

/-- Model of `serde_json::Value`: objects are association lists of fields.
serde_json's default map is a `BTreeMap`, so object fields are kept sorted by
key and carry no duplicates; `float` holds the rendered text of a number that
serde_json stores in its `f64` arm (such a rendering always contains a `.` or
an `e`/`E`). -/
inductive Json where
  | null
  | bool (b : Bool)
  | int (i : Int)
  | float (render : String)
  | str (s : String)
  | arr (xs : List Json)
  | obj (fields : List (String × Json))
deriving Repr

namespace Json

/-- Field lookup in an object's association list. -/
def lookupField (key : String) : List (String × Json) → Json
  | [] => .null
  | (k, v) :: rest => if k = key then v else lookupField key rest

/-- serde_json's `Index<&str>` on `Value` (`v["key"]`): the field of an
object, and `Null` when the key is absent or the value is not an object. -/
def index (v : Json) (key : String) : Json :=
  match v with
  | .obj fields => lookupField key fields
  | _ => .null

/-- `Value::as_str`. -/
def asStr : Json → Option String
  | .str s => some s
  | _ => none

/-- `Value::as_bool`. -/
def asBool : Json → Option Bool
  | .bool b => some b
  | _ => none

/-- `Value::as_array`. -/
def asArray : Json → Option (List Json)
  | .arr xs => some xs
  | _ => none

/-- `Value::is_array`. -/
def is_array (v : Json) : Bool := v.asArray.isSome

end Json

/-- Rust's `char::is_whitespace`: the Unicode `White_Space` property -
U+0009..U+000D, U+0020, U+0085, U+00A0, U+1680, U+2000..U+200A, U+2028,
U+2029, U+202F, U+205F and U+3000. -/
def rustIsWhitespace (c : Char) : Bool :=
  (decide (9 ≤ c.toNat) && decide (c.toNat ≤ 13)) || decide (c.toNat = 32)
    || decide (c.toNat = 133) || decide (c.toNat = 160) || decide (c.toNat = 5760)
    || (decide (8192 ≤ c.toNat) && decide (c.toNat ≤ 8202)) || decide (c.toNat = 8232)
    || decide (c.toNat = 8233) || decide (c.toNat = 8239) || decide (c.toNat = 8287)
    || decide (c.toNat = 12288)

/-- Rust's `str::trim`: the string with surrounding Unicode whitespace
removed. -/
def strTrim (s : String) : String :=
  ⟨(((s.data.dropWhile rustIsWhitespace).reverse).dropWhile rustIsWhitespace).reverse⟩

/-- The digit value of an all-digit run, most significant first. -/
def digitsVal (ds : List Char) : Int :=
  (ds.foldl (fun a d => a * 10 + (d.toNat - 48)) 0 : Nat)

/-- The i64 range check applied by Rust's checked decimal parse. -/
def i64Range (val : Int) : Option Int :=
  if -9223372036854775808 ≤ val ∧ val ≤ 9223372036854775807 then some val
  else none

/-- The digit-run part of Rust's `str::parse::<i64>`, after the optional
sign: one or more ASCII digits whose (signed) value fits in an `i64`. -/
def parseI64Core (neg : Bool) (ds : List Char) : Option Int :=
  if ds = [] then none
  else if ds.all Char.isDigit then
    i64Range (if neg then -digitsVal ds else digitsVal ds)
  else none

/-- Rust's `str::parse::<i64>`: an optional single leading `+` or `-` sign
followed by one or more ASCII digits, whose value fits in an `i64`. -/
def parseI64 (s : String) : Option Int :=
  match s.data with
  | [] => none
  | c :: rest =>
    if c = '-' then parseI64Core true rest
    else if c = '+' then parseI64Core false rest
    else parseI64Core false (c :: rest)

/-- Hex digit character (lowercase), for `\u00XX` escapes. -/
def hexDigitChar (n : Nat) : Char :=
  if n < 10 then Char.ofNat (48 + n) else Char.ofNat (87 + n)

/-- serde_json's escaping of one character inside a JSON string literal. -/
def escapeJsonChar (c : Char) : List Char :=
  if c = '"' then ['\\', '"']
  else if c = '\\' then ['\\', '\\']
  else if c = '\x08' then ['\\', 'b']
  else if c = '\x0c' then ['\\', 'f']
  else if c = '\n' then ['\\', 'n']
  else if c = '\r' then ['\\', 'r']
  else if c = '\t' then ['\\', 't']
  else if c.toNat < 32 then
    ['\\', 'u', '0', '0', hexDigitChar (c.toNat / 16), hexDigitChar (c.toNat % 16)]
  else [c]

/-- Escape every character of a string body. -/
def escapeChars (cs : List Char) : List Char := (cs.map escapeJsonChar).flatten

mutual

/-- serde_json's compact serialization (`Value::to_string` /
`serde_json::to_string`), producing the character list of the output. -/
def jsonToChars : Json → List Char
  | .null => "null".data
  | .bool true => "true".data
  | .bool false => "false".data
  | .int i => (toString i).data
  | .float f => f.data
  | .str s => '"' :: escapeChars s.data ++ ['"']
  | .arr xs => '[' :: jsonListChars xs ++ [']']
  | .obj fs => '{' :: jsonFieldsChars fs ++ ['}']

/-- Comma-separated serialization of array elements. -/
def jsonListChars : List Json → List Char
  | [] => []
  | [x] => jsonToChars x
  | x :: y :: rest => jsonToChars x ++ ',' :: jsonListChars (y :: rest)

/-- Comma-separated serialization of object fields. -/
def jsonFieldsChars : List (String × Json) → List Char
  | [] => []
  | [(k, v)] => '"' :: escapeChars k.data ++ '"' :: ':' :: jsonToChars v
  | (k, v) :: f :: rest =>
      ('"' :: escapeChars k.data ++ '"' :: ':' :: jsonToChars v)
        ++ ',' :: jsonFieldsChars (f :: rest)

end

/-- serde_json's compact serialization, as a string. -/
def jsonToString (v : Json) : String := ⟨jsonToChars v⟩

/-- JSON whitespace skipping (space, tab, newline, carriage return). -/
def skipWs : List Char → List Char
  | [] => []
  | c :: rest =>
    if c = ' ' ∨ c = '\t' ∨ c = '\n' ∨ c = '\r' then skipWs rest else c :: rest

/-- Characters that may occur in a JSON number lexeme. -/
def isNumChar (c : Char) : Bool :=
  c.isDigit || c = '-' || c = '+' || c = '.' || c = 'e' || c = 'E'

/-- Interpretation of a number lexeme: an integer lexeme in i64 range becomes
the `int` arm, any other number lexeme becomes the `float` arm carrying its
rendering. -/
def numFromLexeme (lex : List Char) : Option Json :=
  if lex.all (fun c => c.isDigit || c = '-') then
    match parseI64 ⟨lex⟩ with
    | some i => some (.int i)
    | none => none
  else some (.float ⟨lex⟩)

/-- Hex digit value, for `\uXXXX` escapes. -/
def hexVal (c : Char) : Option Nat :=
  if c.isDigit then some (c.toNat - 48)
  else if 'a' ≤ c ∧ c ≤ 'f' then some (c.toNat - 87)
  else if 'A' ≤ c ∧ c ≤ 'F' then some (c.toNat - 55)
  else none

/-- Body of a JSON string literal, after the opening quote: accumulates
characters (unescaping) until the closing quote. -/
def parseStringBody : Nat → List Char → List Char → Option (String × List Char)
  | 0, _, _ => none
  | _ + 1, _, [] => none
  | fuel + 1, acc, c :: rest =>
    if c = '"' then some (⟨acc.reverse⟩, rest)
    else if c = '\\' then
      match rest with
      | [] => none
      | e :: rest2 =>
        if e = '"' then parseStringBody fuel ('"' :: acc) rest2
        else if e = '\\' then parseStringBody fuel ('\\' :: acc) rest2
        else if e = '/' then parseStringBody fuel ('/' :: acc) rest2
        else if e = 'n' then parseStringBody fuel ('\n' :: acc) rest2
        else if e = 't' then parseStringBody fuel ('\t' :: acc) rest2
        else if e = 'r' then parseStringBody fuel ('\r' :: acc) rest2
        else if e = 'b' then parseStringBody fuel ('\x08' :: acc) rest2
        else if e = 'f' then parseStringBody fuel ('\x0c' :: acc) rest2
        else if e = 'u' then
          match rest2 with
          | h1 :: h2 :: h3 :: h4 :: rest3 =>
            match hexVal h1, hexVal h2, hexVal h3, hexVal h4 with
            | some a, some b, some c2, some d =>
              parseStringBody fuel
                (Char.ofNat (((a * 16 + b) * 16 + c2) * 16 + d) :: acc) rest3
            | _, _, _, _ => none
          | _ => none
        else none
    else parseStringBody fuel (c :: acc) rest

/-- Lexicographic order on key character lists: the order `BTreeMap<String, _>`
keeps its keys in. -/
def keyLt : List Char → List Char → Bool
  | [], [] => false
  | [], _ :: _ => true
  | _ :: _, [] => false
  | c :: cs, d :: ds =>
    if c.toNat < d.toNat then true
    else if d.toNat < c.toNat then false
    else keyLt cs ds

/-- Insertion of a field into a key-sorted association list, overwriting an
existing binding: the behaviour of `BTreeMap::insert` as observed through
iteration order. -/
def insertField (k : String) (v : Json) : List (String × Json) → List (String × Json)
  | [] => [(k, v)]
  | (k2, v2) :: rest =>
    if k = k2 then (k, v) :: rest
    else if keyLt k.data k2.data then (k, v) :: (k2, v2) :: rest
    else (k2, v2) :: insertField k v rest

mutual

/-- Recursive-descent JSON value grammar (`serde_json::from_str`), with fuel
bounding the recursion depth; returns the value and the unconsumed input. -/
def parseValue : Nat → List Char → Option (Json × List Char)
  | 0, _ => none
  | fuel + 1, cs =>
    match skipWs cs with
    | [] => none
    | 'n' :: rest =>
      if rest.take 3 = ['u', 'l', 'l'] then some (.null, rest.drop 3) else none
    | 't' :: rest =>
      if rest.take 3 = ['r', 'u', 'e'] then some (.bool true, rest.drop 3) else none
    | 'f' :: rest =>
      if rest.take 4 = ['a', 'l', 's', 'e'] then some (.bool false, rest.drop 4) else none
    | '"' :: rest =>
      match parseStringBody (rest.length + 1) [] rest with
      | some (s, rest2) => some (.str s, rest2)
      | none => none
    | '[' :: rest =>
      match skipWs rest with
      | ']' :: rest2 => some (.arr [], rest2)
      | rest2 => parseArrayItems fuel [] rest2
    | '{' :: rest =>
      match skipWs rest with
      | '}' :: rest2 => some (.obj [], rest2)
      | rest2 => parseObjFields fuel [] rest2
    | c :: rest =>
      if c.isDigit ∨ c = '-' then
        match numFromLexeme ((c :: rest).takeWhile isNumChar) with
        | some j => some (j, (c :: rest).dropWhile isNumChar)
        | none => none
      else none

/-- Array elements after `[`, accumulated in reverse. -/
def parseArrayItems : Nat → List Json → List Char → Option (Json × List Char)
  | 0, _, _ => none
  | fuel + 1, acc, cs =>
    match parseValue fuel cs with
    | none => none
    | some (v, rest) =>
      match skipWs rest with
      | ',' :: rest2 => parseArrayItems fuel (v :: acc) rest2
      | ']' :: rest2 => some (.arr (v :: acc).reverse, rest2)
      | _ => none

/-- Object fields after `{`, inserted key-sorted as `BTreeMap` does. -/
def parseObjFields : Nat → List (String × Json) → List Char → Option (Json × List Char)
  | 0, _, _ => none
  | fuel + 1, acc, cs =>
    match skipWs cs with
    | '"' :: rest =>
      match parseStringBody (rest.length + 1) [] rest with
      | none => none
      | some (k, rest2) =>
        match skipWs rest2 with
        | ':' :: rest3 =>
          match parseValue fuel rest3 with
          | none => none
          | some (v, rest4) =>
            match skipWs rest4 with
            | ',' :: rest5 => parseObjFields fuel (insertField k v acc) rest5
            | '}' :: rest5 => some (.obj (insertField k v acc), rest5)
            | _ => none
        | _ => none
    | _ => none

end

/-- `serde_json::from_str` on a whole input: one value, at most surrounding
whitespace, nothing else; the empty input is a parse failure. -/
def jsonParse (s : String) : Option Json :=
  match parseValue (s.length + 2) s.data with
  | some (v, rest) => if skipWs rest = [] then some v else none
  | none => none

/-- The classifier's internal shape tag (`enum MsgType` in keybase.rs). -/
inductive MsgType where
  | ChannelList
  | ChatMsg
  | ChatMsgList
  | Unknown
deriving DecidableEq, Repr

/-- Model of `chrono::NaiveDateTime` restricted to what the program uses:
a UTC instant identified by its Unix-epoch second count. -/
structure NaiveDateTime where
  secs_since_epoch : Int
deriving DecidableEq, Repr

/-- The result of `NaiveDateTime::from_timestamp(secs, 0)` on the seconds it
can represent: the UTC instant for the given epoch seconds. chrono panics
outside its representable range; that panic is modelled explicitly by
`chrono_from_timestamp_opt` and the `*_run` functions below, so this total
function is only ever load-bearing together with a representability fact. -/
def NaiveDateTime.from_timestamp (secs : Int) : NaiveDateTime := ⟨secs⟩

/-- `struct ChatMsg` of keybase.rs. -/
structure ChatMsg where
  utc_timestamp : NaiveDateTime
  channel : String
  conversation_id : String
  text : String
deriving DecidableEq, Repr

/-- `struct Channel` of keybase.rs. -/
structure Channel where
  name : String
  id : String
  unread_msgs : Bool
deriving DecidableEq, Repr

/-- `struct KeybaseRequest` of keybase.rs. -/
structure KeybaseRequest where
  msg : Json
deriving Repr

/-- `enum KeybaseReply` of keybase.rs. -/
inductive KeybaseReply where
  | ChatMsgReply (msg : ChatMsg)
  | ChatMsgListReply (msgs : List ChatMsg)
  | ChannelListReply (channels : List Channel)
deriving DecidableEq, Repr

/-- `enum KeybaseInternalError` of keybase.rs. -/
inductive KeybaseInternalError where
  | IoError
  | ParseError
  | UnknownMessage
  | InvalidMessageFormat
deriving DecidableEq, Repr

namespace Keybase

/-- `Keybase::parse_json` (keybase.rs 347-359): structured parse of one line;
a malformed line is `ParseError` (the `From<serde_json::Error>` conversion). -/
def parse_json (json_str : String) : Except KeybaseInternalError Json :=
  match jsonParse json_str with
  | some val => .ok val
  | none => .error .ParseError

/-- `Keybase::parse_chat_msg` (keybase.rs 361-387). The timestamp is taken by
rendering the field's JSON value to text (`Value::to_string`) and parsing that
text as an `i64` (`str::parse`, whose failure converts to `ParseError`). -/
def parse_chat_msg (v : Json) : Except KeybaseInternalError ChatMsg :=
  if (((v.index "msg").index "content").index "type").asStr = some "text" then
    match parseI64 (jsonToString ((v.index "msg").index "sent_at")) with
    | none => .error .ParseError
    | some ts_unix_epoch =>
      match (((v.index "msg").index "sender").index "username").asStr with
      | none => .error .ParseError
      | some channel =>
        match ((((v.index "msg").index "content").index "text").index "body").asStr with
        | none => .error .ParseError
        | some text =>
          match ((v.index "msg").index "conversation_id").asStr with
          | none => .error .ParseError
          | some conversation_id =>
            .ok { utc_timestamp := NaiveDateTime.from_timestamp ts_unix_epoch
                , channel := channel
                , conversation_id := conversation_id
                , text := strTrim text }
  else .error .ParseError

/-- `Keybase::create_chat_msg_reply` (keybase.rs 389-397). -/
def create_chat_msg_reply (v : Json) : Except KeybaseInternalError KeybaseReply :=
  match parse_chat_msg v with
  | .ok chat_msg => .ok (.ChatMsgReply chat_msg)
  | .error err => .error err

/-- The element loop of `Keybase::create_chat_msg_list_reply` (keybase.rs
408-418): elements that parse are pushed in order, elements that fail are
skipped. -/
def buildMsgList : List Json → List ChatMsg
  | [] => []
  | m :: rest =>
    match parse_chat_msg m with
    | .ok chat_msg => chat_msg :: buildMsgList rest
    | .error _ => buildMsgList rest

/-- `Keybase::create_chat_msg_list_reply` (keybase.rs 399-420): requires
`result.messages` to be an array (else `ParseError`), then collects the
elements that parse, skipping the rest. -/
def create_chat_msg_list_reply (v : Json) : Except KeybaseInternalError KeybaseReply :=
  match ((v.index "result").index "messages").asArray with
  | none => .error .ParseError
  | some messages => .ok (.ChatMsgListReply (buildMsgList messages))

/-- The element loop of `Keybase::create_channel_list_reply` (keybase.rs
432-451): every element must have a string `channel.name`, a string `id` and
a boolean `unread`; the first failure aborts with `ParseError`. -/
def parse_channels : List Json → Except KeybaseInternalError (List Channel)
  | [] => .ok []
  | c :: rest =>
    match ((c.index "channel").index "name").asStr with
    | none => .error .ParseError
    | some name =>
      match (c.index "id").asStr with
      | none => .error .ParseError
      | some id =>
        match (c.index "unread").asBool with
        | none => .error .ParseError
        | some unread_msgs =>
          match parse_channels rest with
          | .ok tail => .ok ({ name := name, id := id, unread_msgs := unread_msgs } :: tail)
          | .error err => .error err

/-- `Keybase::create_channel_list_reply` (keybase.rs 422-453): requires
`result.conversations` to be an array (else `InvalidMessageFormat`), then
parses every element strictly. -/
def create_channel_list_reply (v : Json) : Except KeybaseInternalError KeybaseReply :=
  match ((v.index "result").index "conversations").asArray with
  | none => .error .InvalidMessageFormat
  | some conversations =>
    match parse_channels conversations with
    | .ok channels => .ok (.ChannelListReply channels)
    | .error err => .error err

/-- `Keybase::get_msg_type` (keybase.rs 455-464). `v["x"] == "lit"` on a
serde_json `Value` holds exactly when the value is a string equal to the
literal, i.e. `as_str() == Some(lit)`. -/
def get_msg_type (v : Json) : MsgType :=
  if (v.index "type").asStr = some "chat"
      ∧ (((v.index "msg").index "content").index "type").asStr = some "text" then
    .ChatMsg
  else if ((v.index "result").index "messages").is_array then
    .ChatMsgList
  else if ((v.index "result").index "conversations").is_array then
    .ChannelList
  else
    .Unknown

/-- `Keybase::to_keybase_msg` (keybase.rs 466-497). -/
def to_keybase_msg (v : Json) : Except KeybaseInternalError KeybaseReply :=
  match get_msg_type v with
  | .ChatMsg =>
    match create_chat_msg_reply v with
    | .ok msg => .ok msg
    | .error err => .error err
  | .ChatMsgList =>
    match create_chat_msg_list_reply v with
    | .ok msg => .ok msg
    | .error err => .error err
  | .ChannelList =>
    match create_channel_list_reply v with
    | .ok msg => .ok msg
    | .error err => .error err
  | .Unknown => .error .UnknownMessage

/-- `Keybase::create_msg_req` (keybase.rs 309-321); the `json!` object is a
`BTreeMap`, so fields are listed in sorted key order as serde keeps them. -/
def create_msg_req (conversation_id : String) (text : String) : KeybaseRequest :=
  { msg := Json.obj
      [("method", Json.str "send"),
       ("params", Json.obj
         [("options", Json.obj
           [("conversation_id", Json.str conversation_id),
            ("message", Json.obj [("body", Json.str text)])])])] }

/-- `Keybase::create_read_conversation_req` (keybase.rs 323-337). -/
def create_read_conversation_req (conversation_id : String) (num_msgs : Nat) : KeybaseRequest :=
  { msg := Json.obj
      [("method", Json.str "read"),
       ("params", Json.obj
         [("options", Json.obj
           [("conversation_id", Json.str conversation_id),
            ("pagination", Json.obj [("num", Json.int num_msgs)])])])] }

/-- `Keybase::create_list_channels_req` (keybase.rs 339-345). -/
def create_list_channels_req : KeybaseRequest :=
  { msg := Json.obj [("method", Json.str "list")] }

/-- The serialization step of `Keybase::handle_next_call` (keybase.rs 228):
the request's JSON value rendered by `serde_json::to_string` to the single
line of text written to the API child's stdin. -/
def serialize_request (req : KeybaseRequest) : String := jsonToString req.msg

/-- `Keybase::get_next_message` (keybase.rs 149-158) after `read_line`
returned successfully with the given line (at end-of-file, `read_line`
succeeds with zero bytes and the line is empty): parse, then classify. -/
def get_next_message_line (s : String) : Except KeybaseInternalError KeybaseReply := do
  let parsed ← parse_json s
  to_keybase_msg parsed

/-- The listener loop's possible reactions to one processed line
(keybase.rs 189-214). -/
inductive LoopOutcome where
  | fatalPanic
  | skipContinue
  | emit (r : KeybaseReply)
deriving DecidableEq, Repr

/-- The listener loop's reaction to one successfully read line (keybase.rs
189-196): an `IoError` panics the thread, any other error is logged and the
loop continues, a classified message is emitted onto the queue. -/
def listener_iteration (line : String) : LoopOutcome :=
  match get_next_message_line line with
  | .error .IoError => .fatalPanic
  | .error _ => .skipContinue
  | .ok r => .emit r

/-- Spec-side classification, written from the spec's words (spec §4.2):
the dispatch cascade evaluated in priority order — single chat shape, then
batch shape, then channel-list shape, then `UnknownMessage`. -/
def classifySpec (v : Json) : Except KeybaseInternalError KeybaseReply :=
  if (v.index "type").asStr = some "chat"
      ∧ (((v.index "msg").index "content").index "type").asStr = some "text" then
    create_chat_msg_reply v
  else if ((v.index "result").index "messages").is_array then
    create_chat_msg_list_reply v
  else if ((v.index "result").index "conversations").is_array then
    create_channel_list_reply v
  else
    .error .UnknownMessage

/-- Shape requirement on one `result.conversations` element, as the code
checks it: a string `channel.name`, a string `id`, a boolean `unread`. -/
def channelElemOk (c : Json) : Prop :=
  (((c.index "channel").index "name").asStr).isSome = true
    ∧ ((c.index "id").asStr).isSome = true
    ∧ ((c.index "unread").asBool).isSome = true

instance (c : Json) : Decidable (channelElemOk c) := by
  unfold channelElemOk; infer_instance

/-- The `Channel` extracted from a well-shaped `result.conversations`
element. -/
def extractChannel (c : Json) : Channel :=
  { name := (((c.index "channel").index "name").asStr).getD ""
  , id := ((c.index "id").asStr).getD ""
  , unread_msgs := ((c.index "unread").asBool).getD false }

end Keybase

open Keybase

/-- Test fixture: the `msg` object of a well-formed chat event (epoch 1234,
sender "alice", body " hi " with surrounding whitespace, conversation "c1"). -/
def exChatInner : Json :=
  Json.obj
    [("content", Json.obj
        [("text", Json.obj [("body", Json.str " hi ")]),
         ("type", Json.str "text")]),
     ("conversation_id", Json.str "c1"),
     ("sender", Json.obj [("username", Json.str "alice")]),
     ("sent_at", Json.int 1234)]

/-- Test fixture: a well-formed single chat event. -/
def exChat : Json := Json.obj [("msg", exChatInner), ("type", Json.str "chat")]

/-- The `ChatMsg` extracted from `exChat` (body trimmed). -/
def exChatMsgVal : ChatMsg :=
  { utc_timestamp := NaiveDateTime.from_timestamp 1234
  , channel := "alice", conversation_id := "c1", text := "hi" }

/-- Test fixture: a well-formed batch element (shaped like the chat event's
`msg` wrapper). -/
def exGoodElem : Json := Json.obj [("msg", exChatInner)]

/-- Test fixture: a malformed batch element. -/
def exBadElem : Json := Json.str "bad"

/-- Test fixture: a batch with one well-formed and one malformed element. -/
def exBatch : Json :=
  Json.obj [("result", Json.obj [("messages", Json.arr [exGoodElem, exBadElem])])]

/-- Test fixture: a well-formed channel-list element. -/
def exChanElem1 : Json :=
  Json.obj [("channel", Json.obj [("name", Json.str "general")]),
            ("id", Json.str "id1"), ("unread", Json.bool true)]

/-- Test fixture: a second well-formed channel-list element. -/
def exChanElem2 : Json :=
  Json.obj [("channel", Json.obj [("name", Json.str "random")]),
            ("id", Json.str "id2"), ("unread", Json.bool false)]

/-- Test fixture: a channel list with two well-formed entries. -/
def exChanList : Json :=
  Json.obj [("result", Json.obj [("conversations", Json.arr [exChanElem1, exChanElem2])])]

/-- Test fixture: a channel list whose only element has an empty channel
name but a well-typed `id` and `unread`. -/
def exChanEmptyName : Json :=
  Json.obj [("result", Json.obj [("conversations", Json.arr
    [Json.obj [("channel", Json.obj [("name", Json.str "")]),
               ("id", Json.str "id1"), ("unread", Json.bool true)]])])]

/-- Test fixture: well-formed JSON matching none of the three shapes. -/
def exFooBar : Json := Json.obj [("foo", Json.str "bar")]

/-- Test fixture: `result.messages` present but not an array. -/
def exMsgsNotArray : Json :=
  Json.obj [("result", Json.obj [("messages", Json.str "nope")])]

/-- Test fixture: a chat event whose sender username and conversation id are
empty strings. -/
def exEmptyIds : Json :=
  Json.obj
    [("msg", Json.obj
        [("content", Json.obj
            [("text", Json.obj [("body", Json.str "x")]),
             ("type", Json.str "text")]),
         ("conversation_id", Json.str ""),
         ("sender", Json.obj [("username", Json.str "")]),
         ("sent_at", Json.int 1)]),
     ("type", Json.str "chat")]

/-- Test fixture: a chat event whose `sent_at` is the JSON string "1234"
rather than a bare integer; every other field is well-formed. -/
def exStrSentAt : Json :=
  Json.obj
    [("msg", Json.obj
        [("content", Json.obj
            [("text", Json.obj [("body", Json.str "hi")]),
             ("type", Json.str "text")]),
         ("conversation_id", Json.str "c1"),
         ("sender", Json.obj [("username", Json.str "alice")]),
         ("sent_at", Json.str "1234")]),
     ("type", Json.str "chat")]

/-- Outcome of one classification attempt as the thread actually runs it,
with the panic made explicit: chrono's `NaiveDateTime::from_timestamp`
aborts the thread when its argument is out of range, which no `Result`
value of the program reports. -/
inductive RunResult (α : Type) where
  | panic
  | err (e : KeybaseInternalError)
  | ok (a : α)
deriving DecidableEq, Repr

/-- The successful value of a run, if any. -/
def RunResult.toOk {α : Type} : RunResult α → Option α
  | .ok a => some a
  | _ => none

/-- Smallest epoch-second count representable by chrono 0.4's
`NaiveDateTime`: the first second of January 1 of year -262144 (chrono's
`MIN_YEAR`, i32.MIN >> 13), which is day -96465658 from the epoch, times
86400 seconds. -/
def chronoMinSecs : Int := -8334632851200

/-- Largest epoch-second count representable by chrono 0.4's
`NaiveDateTime`: the last second of December 31 of year 262143 (chrono's
`MAX_YEAR`, i32.MAX >> 13), which is day 95026601 from the epoch, i.e.
95026601 * 86400 + 86399. -/
def chronoMaxSecs : Int := 8210298412799

/-- chrono 0.4's `NaiveDateTime::from_timestamp_opt(secs, 0)`: the instant
when the seconds are representable, `none` otherwise. The panicking
`from_timestamp` used at keybase.rs:379 aborts the thread exactly where
this is `none`. -/
def chrono_from_timestamp_opt (secs : Int) : Option NaiveDateTime :=
  if chronoMinSecs ≤ secs ∧ secs ≤ chronoMaxSecs then some ⟨secs⟩ else none

/-- `Keybase::parse_chat_msg` (keybase.rs 361-387) as the thread actually
runs it: identical to `parse_chat_msg`, except that the
`NaiveDateTime::from_timestamp` call - reached only after all four fields
extracted successfully - panics, aborting the thread, when the parsed epoch
seconds lie outside chrono's representable range. -/
def parse_chat_msg_run (v : Json) : RunResult ChatMsg :=
  if (((v.index "msg").index "content").index "type").asStr = some "text" then
    match parseI64 (jsonToString ((v.index "msg").index "sent_at")) with
    | none => .err .ParseError
    | some ts_unix_epoch =>
      match (((v.index "msg").index "sender").index "username").asStr with
      | none => .err .ParseError
      | some channel =>
        match ((((v.index "msg").index "content").index "text").index "body").asStr with
        | none => .err .ParseError
        | some text =>
          match ((v.index "msg").index "conversation_id").asStr with
          | none => .err .ParseError
          | some conversation_id =>
            match chrono_from_timestamp_opt ts_unix_epoch with
            | none => .panic
            | some utc_timestamp =>
              .ok { utc_timestamp := utc_timestamp
                  , channel := channel
                  , conversation_id := conversation_id
                  , text := strTrim text }
  else .err .ParseError

/-- `Keybase::create_chat_msg_reply` (keybase.rs 389-397) with the panic
propagated (a panic escapes the call before any `match` on its result). -/
def create_chat_msg_reply_run (v : Json) : RunResult KeybaseReply :=
  match parse_chat_msg_run v with
  | .ok chat_msg => .ok (.ChatMsgReply chat_msg)
  | .err e => .err e
  | .panic => .panic

/-- The element loop of `Keybase::create_chat_msg_list_reply` (keybase.rs
408-418) as the thread actually runs it: an element whose extraction panics
aborts the whole loop (`none`); otherwise parsed elements are kept in order
and failing ones skipped. -/
def buildMsgList_run : List Json → Option (List ChatMsg)
  | [] => some []
  | m :: rest =>
    match parse_chat_msg_run m with
    | .panic => none
    | .err _ => buildMsgList_run rest
    | .ok chat_msg =>
      match buildMsgList_run rest with
      | none => none
      | some tail => some (chat_msg :: tail)

/-- `Keybase::create_chat_msg_list_reply` (keybase.rs 399-420) with the
panic propagated. -/
def create_chat_msg_list_reply_run (v : Json) : RunResult KeybaseReply :=
  match ((v.index "result").index "messages").asArray with
  | none => .err .ParseError
  | some messages =>
    match buildMsgList_run messages with
    | none => .panic
    | some msgs => .ok (.ChatMsgListReply msgs)

/-- `Keybase::to_keybase_msg` (keybase.rs 466-497) as the thread actually
runs it: the same `get_msg_type` dispatch, each handler's `Ok`/`Err`
re-wrap being the identity, with a panic in the chat or batch handler
propagating; the channel-list handler never reaches chrono, so it can only
return its `Result`. -/
def to_keybase_msg_run (v : Json) : RunResult KeybaseReply :=
  match get_msg_type v with
  | .ChatMsg => create_chat_msg_reply_run v
  | .ChatMsgList => create_chat_msg_list_reply_run v
  | .ChannelList =>
    match create_channel_list_reply v with
    | .ok msg => .ok msg
    | .error err => .err err
  | .Unknown => .err .UnknownMessage

/-- Test fixture: the `msg` object of a chat event whose `sent_at` (10^13)
parses as an i64 but lies outside chrono's representable range. -/
def exChronoPanicInner : Json :=
  Json.obj
    [("content", Json.obj
        [("text", Json.obj [("body", Json.str "late")]),
         ("type", Json.str "text")]),
     ("conversation_id", Json.str "c1"),
     ("sender", Json.obj [("username", Json.str "alice")]),
     ("sent_at", Json.int 10000000000000)]

/-- Test fixture: a chat event that panics the thread inside chrono. -/
def exChronoPanic : Json :=
  Json.obj [("msg", exChronoPanicInner), ("type", Json.str "chat")]

/-- Test fixture: a batch element that panics the thread inside chrono. -/
def exPanicElem : Json := Json.obj [("msg", exChronoPanicInner)]

/-- Test fixture: a batch with one well-formed element and one element that
panics the thread. -/
def exBatchPanic : Json :=
  Json.obj [("result", Json.obj [("messages", Json.arr [exGoodElem, exPanicElem])])]

/-- Claim C7: serializing the send-message request built for conversation id
"abc123" and body "hello" to a line of text and parsing that line back
yields a structured JSON value equal to the value the builder produced. -/
theorem C7_send_round_trip :
    parse_json (serialize_request (create_msg_req "abc123" "hello"))
      = .ok (create_msg_req "abc123" "hello").msg := rfl

/-- Claim C9: the empty input line - what a successful zero-byte `read_line`
at end-of-file produces - parses as `ParseError`, not the transport-fatal
`IoError`, so the listener loop skips it and continues instead of
terminating. -/
theorem C9_empty_line_parse_error_skip :
    get_next_message_line "" = .error .ParseError
    ∧ listener_iteration "" = .skipContinue
    ∧ LoopOutcome.skipContinue ≠ LoopOutcome.fatalPanic :=
  ⟨rfl, rfl, by decide⟩

/-- Counterexample for C5: an input whose `result.messages` is absent and
which matches no other shape classifies as `UnknownMessage`, not as the
`InvalidMessageFormat` the claim states. -/
theorem C5_invalid_format_counterexample :
    to_keybase_msg exFooBar = .error .UnknownMessage
    ∧ KeybaseInternalError.UnknownMessage ≠ KeybaseInternalError.InvalidMessageFormat :=
  ⟨rfl, by decide⟩

/-- Counterexample for C4: a channel-list input whose single element carries
an empty channel name classifies successfully, so success does not require
element names to be non-empty as the claim states. -/
theorem C4_channel_list_counterexample :
    to_keybase_msg exChanEmptyName
      = .ok (.ChannelListReply [{ name := "", id := "id1", unread_msgs := true }])
    ∧ (Channel.mk "" "id1" true).name = "" :=
  ⟨rfl, rfl⟩

/-- Counterexample for C6: a chat event with empty sender username and empty
conversation id classifies into a `ChatMessage` whose `channel` and
`conversationId` are both empty, violating the claimed invariant. -/
theorem C6_nonempty_invariant_counterexample :
    to_keybase_msg exEmptyIds
      = .ok (.ChatMsgReply
          { utc_timestamp := NaiveDateTime.from_timestamp 1
          , channel := "", conversation_id := "", text := "x" })
    ∧ (ChatMsg.mk (NaiveDateTime.from_timestamp 1) "" "" "x").channel = ""
    ∧ (ChatMsg.mk (NaiveDateTime.from_timestamp 1) "" "" "x").conversation_id = "" :=
  ⟨rfl, rfl, rfl⟩

/-- The source's `match` in `to_keybase_msg` re-wraps each handler's `Ok`/`Err`
verbatim, so classification equals the selected handler's result. -/
theorem to_keybase_msg_branches (v : Json) :
    to_keybase_msg v =
      match get_msg_type v with
      | .ChatMsg => create_chat_msg_reply v
      | .ChatMsgList => create_chat_msg_list_reply v
      | .ChannelList => create_channel_list_reply v
      | .Unknown => .error .UnknownMessage := by
  unfold to_keybase_msg
  cases get_msg_type v
  case ChannelList => cases create_channel_list_reply v <;> rfl
  case ChatMsg => cases create_chat_msg_reply v <;> rfl
  case ChatMsgList => cases create_chat_msg_list_reply v <;> rfl
  case Unknown => rfl

/-- First dispatch branch: the single-chat shape wins. -/
theorem get_msg_type_of_chat (v : Json)
    (h1 : (Json.index v "type").asStr = some "chat")
    (h2 : (((Json.index v "msg").index "content").index "type").asStr = some "text") :
    get_msg_type v = .ChatMsg := by
  unfold get_msg_type
  rw [if_pos ⟨h1, h2⟩]

/-- Second dispatch branch: not chat-shaped, `result.messages` an array. -/
theorem get_msg_type_of_messages (v : Json)
    (hnc : ¬((Json.index v "type").asStr = some "chat"
        ∧ (((Json.index v "msg").index "content").index "type").asStr = some "text"))
    (hm : ((Json.index v "result").index "messages").is_array = true) :
    get_msg_type v = .ChatMsgList := by
  unfold get_msg_type
  rw [if_neg hnc, if_pos hm]

/-- Third dispatch branch: `result.conversations` an array, earlier shapes
absent. -/
theorem get_msg_type_of_conversations (v : Json)
    (hnc : ¬((Json.index v "type").asStr = some "chat"
        ∧ (((Json.index v "msg").index "content").index "type").asStr = some "text"))
    (hm : ((Json.index v "result").index "messages").is_array = false)
    (hc : ((Json.index v "result").index "conversations").is_array = true) :
    get_msg_type v = .ChannelList := by
  unfold get_msg_type
  rw [if_neg hnc, if_neg (by simp [hm]), if_pos hc]

/-- Final dispatch branch: no recognized shape. -/
theorem get_msg_type_of_unknown (v : Json)
    (hnc : ¬((Json.index v "type").asStr = some "chat"
        ∧ (((Json.index v "msg").index "content").index "type").asStr = some "text"))
    (hm : ((Json.index v "result").index "messages").is_array = false)
    (hc : ((Json.index v "result").index "conversations").is_array = false) :
    get_msg_type v = .Unknown := by
  unfold get_msg_type
  rw [if_neg hnc, if_neg (by simp [hm]), if_neg (by simp [hc])]

/-- Claim C1: classification dispatch follows exactly the priority order
single-chat shape, then batch shape, then channel-list shape, then
`UnknownMessage`: `to_keybase_msg` coincides with the spec's priority cascade
`classifySpec`, so every value is routed to exactly one shape handler. -/
theorem C1_dispatch_priority (v : Json) :
    to_keybase_msg v = classifySpec v := by
  rw [to_keybase_msg_branches]
  unfold classifySpec get_msg_type
  split_ifs <;> rfl

/-- `is_array` is the defined test of `as_array` succeeding. -/
theorem asArray_eq_none_of_not_is_array (v : Json)
    (h : v.is_array = false) : v.asArray = none := by
  cases hv : v.asArray
  · rfl
  · rw [Json.is_array, hv] at h
    cases h

/-- Claim C8: a well-formed value matching none of the three recognized
shapes classifies as the `UnknownMessage` failure kind, hence never as any
of the three typed variants. -/
theorem C8_unknown_message (v : Json)
    (hnc : ¬((Json.index v "type").asStr = some "chat"
        ∧ (((Json.index v "msg").index "content").index "type").asStr = some "text"))
    (hm : ((Json.index v "result").index "messages").is_array = false)
    (hc : ((Json.index v "result").index "conversations").is_array = false) :
    to_keybase_msg v = .error .UnknownMessage := by
  rw [to_keybase_msg_branches, get_msg_type_of_unknown v hnc hm hc]

/-- Witness for C8 at the concrete unknown-shaped input of the claim. -/
theorem C8_unknown_message_witness :
    to_keybase_msg exFooBar = .error .UnknownMessage :=
  C8_unknown_message exFooBar (by decide) rfl rfl

/-- Amendment of C5: when `result.messages` is absent or not an array and the
input is not chat-shaped, the dispatcher never reaches the batch path, so
classification yields `UnknownMessage` whenever `result.conversations` is not
an array either; and the batch parser itself, applied to such a value,
returns `ParseError` - in neither case `InvalidMessageFormat`. -/
theorem C5_missing_messages_amended (v : Json)
    (hnc : ¬((Json.index v "type").asStr = some "chat"
        ∧ (((Json.index v "msg").index "content").index "type").asStr = some "text"))
    (hm : ((Json.index v "result").index "messages").is_array = false) :
    (((Json.index v "result").index "conversations").is_array = false →
        to_keybase_msg v = .error .UnknownMessage)
    ∧ create_chat_msg_list_reply v = .error .ParseError := by
  constructor
  · intro hc
    rw [to_keybase_msg_branches, get_msg_type_of_unknown v hnc hm hc]
  · unfold create_chat_msg_list_reply
    rw [asArray_eq_none_of_not_is_array _ hm]

/-- Witness for the amended C5 at a value whose `result.messages` is present
but not an array. -/
theorem C5_missing_messages_amended_witness :
    to_keybase_msg exMsgsNotArray = .error .UnknownMessage
    ∧ create_chat_msg_list_reply exMsgsNotArray = .error .ParseError :=
  ⟨(C5_missing_messages_amended exMsgsNotArray (by decide) rfl).1 rfl,
   (C5_missing_messages_amended exMsgsNotArray (by decide) rfl).2⟩

/-- Successful extraction in `parse_chat_msg`: with the nested content type
"text" and all four fields well-typed, the `ChatMsg` is built from the
source fields verbatim, with the body trimmed. -/
theorem parse_chat_msg_ok (v : Json) (ts : Int) (u b c : String)
    (htext : (((Json.index v "msg").index "content").index "type").asStr = some "text")
    (hts : parseI64 (jsonToString ((Json.index v "msg").index "sent_at")) = some ts)
    (hu : (((Json.index v "msg").index "sender").index "username").asStr = some u)
    (hb : ((((Json.index v "msg").index "content").index "text").index "body").asStr = some b)
    (hc : ((Json.index v "msg").index "conversation_id").asStr = some c) :
    parse_chat_msg v = .ok
      { utc_timestamp := NaiveDateTime.from_timestamp ts
      , channel := u, conversation_id := c, text := strTrim b } := by
  unfold parse_chat_msg
  rw [if_pos htext]
  simp only [hts, hu, hb, hc]

/-- Failing extraction in `parse_chat_msg`: if any of the four fields is
missing or mistyped, the result is `ParseError`. -/
theorem parse_chat_msg_err (v : Json)
    (hbad : parseI64 (jsonToString ((Json.index v "msg").index "sent_at")) = none
      ∨ (((Json.index v "msg").index "sender").index "username").asStr = none
      ∨ ((((Json.index v "msg").index "content").index "text").index "body").asStr = none
      ∨ ((Json.index v "msg").index "conversation_id").asStr = none) :
    parse_chat_msg v = .error .ParseError := by
  unfold parse_chat_msg
  by_cases htext : (((Json.index v "msg").index "content").index "type").asStr = some "text"
  · rw [if_pos htext]
    rcases hbad with h | h | h | h
    · simp only [h]
    · cases hts : parseI64 (jsonToString ((Json.index v "msg").index "sent_at")) <;>
        simp only [h]
    · cases hts : parseI64 (jsonToString ((Json.index v "msg").index "sent_at")) <;>
        cases hu : (((Json.index v "msg").index "sender").index "username").asStr <;>
        simp only [h]
    · cases hts : parseI64 (jsonToString ((Json.index v "msg").index "sent_at")) <;>
        cases hu : (((Json.index v "msg").index "sender").index "username").asStr <;>
        cases hb : ((((Json.index v "msg").index "content").index "text").index "body").asStr <;>
        simp only [h]
  · rw [if_neg htext]

/-- The batch loop keeps exactly the elements that parse, in their original
relative order: it is `filterMap` of the single-element parse. -/
theorem buildMsgList_eq_filterMap (xs : List Json) :
    buildMsgList xs = xs.filterMap (fun m => (parse_chat_msg m).toOption) := by
  induction xs with
  | nil => rfl
  | cons m rest ih =>
    unfold buildMsgList
    cases hp : parse_chat_msg m <;>
      simp [List.filterMap_cons, hp, Except.toOption, ih]

/-- The strict channel loop on a list of well-shaped elements extracts every
channel in input order. -/
theorem parse_channels_ok (xs : List Json)
    (h : ∀ c ∈ xs, channelElemOk c) :
    parse_channels xs = .ok (xs.map extractChannel) := by
  induction xs with
  | nil => rfl
  | cons c rest ih =>
    obtain ⟨h1, h2, h3⟩ := h c (List.mem_cons_self c rest)
    rw [Option.isSome_iff_exists] at h1 h2 h3
    obtain ⟨name, hn⟩ := h1
    obtain ⟨id, hi⟩ := h2
    obtain ⟨unread, hu⟩ := h3
    unfold parse_channels
    rw [hn, hi, hu, ih (fun x hx => h x (List.mem_cons_of_mem c hx))]
    simp [extractChannel, hn, hi, hu]

/-- The strict channel loop aborts with `ParseError` as soon as any element
is not well-shaped. -/
theorem parse_channels_err (xs : List Json)
    (h : ¬ ∀ c ∈ xs, channelElemOk c) :
    parse_channels xs = .error .ParseError := by
  induction xs with
  | nil => exact absurd (fun c hc => absurd hc (List.not_mem_nil c)) h
  | cons c rest ih =>
    by_cases hc : channelElemOk c
    · have hrest : ¬ ∀ x ∈ rest, channelElemOk x := by
        intro hall
        exact h (fun x hx => by
          rcases List.mem_cons.mp hx with rfl | hx2
          · exact hc
          · exact hall x hx2)
      obtain ⟨h1, h2, h3⟩ := hc
      rw [Option.isSome_iff_exists] at h1 h2 h3
      obtain ⟨name, hn⟩ := h1
      obtain ⟨id, hi⟩ := h2
      obtain ⟨unread, hu⟩ := h3
      unfold parse_channels
      rw [hn, hi, hu, ih hrest]
    · unfold parse_channels
      unfold channelElemOk at hc
      cases hn : (((Json.index c "channel").index "name").asStr) with
      | none => rfl
      | some name =>
        cases hi : ((Json.index c "id").asStr) with
        | none => rfl
        | some id =>
          cases hu : ((Json.index c "unread").asBool) with
          | none => rfl
          | some unread =>
            exact absurd ⟨by rw [hn]; rfl, by rw [hi]; rfl, by rw [hu]; rfl⟩ hc

/-- Amendment of C4: for a channel-list input, classification succeeds if and
only if every element yields a string channel name (the code does not require
it to be non-empty), a string id and a boolean unread flag, in which case the
`ChannelList` holds the channels in input order with matching unread flags;
if any single element fails the whole classification fails with `ParseError`
and no partial list is returned. -/
theorem C4_channel_list_strict_amended (v : Json) (xs : List Json)
    (hnc : ¬((Json.index v "type").asStr = some "chat"
        ∧ (((Json.index v "msg").index "content").index "type").asStr = some "text"))
    (hnm : ((Json.index v "result").index "messages").is_array = false)
    (harr : (Json.index v "result").index "conversations" = Json.arr xs) :
    (to_keybase_msg v = .ok (.ChannelListReply (xs.map extractChannel))
        ↔ ∀ c ∈ xs, channelElemOk c)
    ∧ ((¬ ∀ c ∈ xs, channelElemOk c) → to_keybase_msg v = .error .ParseError) := by
  have hca : ((Json.index v "result").index "conversations").is_array = true := by
    rw [harr]; rfl
  have hroute : to_keybase_msg v = create_channel_list_reply v := by
    rw [to_keybase_msg_branches, get_msg_type_of_conversations v hnc hnm hca]
  have hbody : ∀ r, create_channel_list_reply v = r ↔
      (match parse_channels xs with
        | .ok channels => Except.ok (KeybaseReply.ChannelListReply channels)
        | .error err => Except.error err) = r := by
    intro r
    unfold create_channel_list_reply
    rw [harr]
    simp only [Json.asArray]
  constructor
  · constructor
    · intro hok
      by_cases hall : ∀ c ∈ xs, channelElemOk c
      · exact hall
      · rw [hroute] at hok
        rw [hbody] at hok
        rw [parse_channels_err xs hall] at hok
        exact absurd hok (by simp)
    · intro hall
      rw [hroute, hbody, parse_channels_ok xs hall]
  · intro hall
    rw [hroute, hbody, parse_channels_err xs hall]

/-- Witness for the amended C4 at a concrete two-element channel list with
differing unread flags: both channels appear in input order. -/
theorem C4_channel_list_strict_amended_witness :
    to_keybase_msg exChanList = .ok (.ChannelListReply
      [{ name := "general", id := "id1", unread_msgs := true },
       { name := "random", id := "id2", unread_msgs := false }]) := by
  have h := (C4_channel_list_strict_amended exChanList [exChanElem1, exChanElem2]
    (by decide) rfl rfl).1.mpr (by decide)
  simpa using h

/-- Inversion of a successful chat extraction: the produced `ChatMsg` carries
the sender username and conversation id read verbatim from the source value. -/
theorem parse_chat_msg_fields (w : Json) (m : ChatMsg)
    (h : parse_chat_msg w = .ok m) :
    (((Json.index w "msg").index "sender").index "username").asStr = some m.channel
    ∧ ((Json.index w "msg").index "conversation_id").asStr = some m.conversation_id := by
  unfold parse_chat_msg at h
  by_cases htext : (((Json.index w "msg").index "content").index "type").asStr = some "text"
  · rw [if_pos htext] at h
    cases hts : parseI64 (jsonToString ((Json.index w "msg").index "sent_at")) with
    | none => rw [hts] at h; exact Except.noConfusion h
    | some ts =>
      rw [hts] at h
      cases hu : (((Json.index w "msg").index "sender").index "username").asStr with
      | none => rw [hu] at h; exact Except.noConfusion h
      | some u =>
        rw [hu] at h
        cases hb : ((((Json.index w "msg").index "content").index "text").index "body").asStr with
        | none => rw [hb] at h; exact Except.noConfusion h
        | some b =>
          rw [hb] at h
          cases hc : ((Json.index w "msg").index "conversation_id").asStr with
          | none => rw [hc] at h; exact Except.noConfusion h
          | some c =>
            rw [hc] at h
            injection h with hm
            subst hm
            exact ⟨rfl, rfl⟩
  · rw [if_neg htext] at h
    exact Except.noConfusion h


/-- Shape of every `create_chat_msg_reply` result: a single chat reply
wrapping the parsed message, or the parse error. -/
theorem create_chat_msg_reply_shapes (v : Json) :
    (∃ a, parse_chat_msg v = .ok a ∧ create_chat_msg_reply v = .ok (.ChatMsgReply a))
    ∨ ∃ e, create_chat_msg_reply v = .error e := by
  unfold create_chat_msg_reply
  cases hp : parse_chat_msg v with
  | ok a => exact Or.inl ⟨a, rfl, rfl⟩
  | error e => exact Or.inr ⟨e, rfl⟩

/-- Shape of every `create_chat_msg_list_reply` result: a batch built by the
skipping loop over the `result.messages` array, or `ParseError`. -/
theorem create_chat_msg_list_reply_shapes (v : Json) :
    (∃ xs, ((Json.index v "result").index "messages").asArray = some xs
        ∧ create_chat_msg_list_reply v = .ok (.ChatMsgListReply (buildMsgList xs)))
    ∨ create_chat_msg_list_reply v = .error .ParseError := by
  unfold create_chat_msg_list_reply
  cases ha : ((Json.index v "result").index "messages").asArray with
  | none => exact Or.inr rfl
  | some xs => exact Or.inl ⟨xs, rfl, rfl⟩

/-- `create_channel_list_reply` on a value whose `result.conversations` is
an array runs the strict element loop. -/
theorem create_channel_list_reply_of_arr (v : Json) (convs : List Json)
    (ha : ((Json.index v "result").index "conversations").asArray = some convs) :
    create_channel_list_reply v =
      match parse_channels convs with
      | .ok channels => .ok (.ChannelListReply channels)
      | .error err => .error err := by
  unfold create_channel_list_reply
  rw [ha]

/-- Shape of every `create_channel_list_reply` result: a channel list, or an
error. -/
theorem create_channel_list_reply_shapes (v : Json) :
    (∃ chs, create_channel_list_reply v = .ok (.ChannelListReply chs))
    ∨ ∃ e, create_channel_list_reply v = .error e := by
  cases ha : ((Json.index v "result").index "conversations").asArray with
  | none => exact Or.inr ⟨_, by unfold create_channel_list_reply; rw [ha]⟩
  | some convs =>
    have heq := create_channel_list_reply_of_arr v convs ha
    cases hp : parse_channels convs with
    | ok channels => rw [hp] at heq; exact Or.inl ⟨channels, heq⟩
    | error e => rw [hp] at heq; exact Or.inr ⟨e, heq⟩

/-- A digit run containing any non-digit character fails the integer parse. -/
theorem parseI64Core_none_of_nondigit (neg : Bool) (ds : List Char) (c : Char)
    (hc : c ∈ ds) (hdig : c.isDigit = false) : parseI64Core neg ds = none := by
  unfold parseI64Core
  have hne : ¬(ds = []) := by
    rintro rfl
    exact absurd hc (List.not_mem_nil c)
  rw [if_neg hne]
  have hall : ds.all Char.isDigit = false := by
    cases hd : ds.all Char.isDigit
    · rfl
    · have := List.all_eq_true.mp hd c hc
      rw [hdig] at this
      exact absurd this (by decide)
  rw [if_neg (by simp [hall])]

/-- A string containing a non-digit, non-sign character anywhere fails
Rust's `str::parse::<i64>`. -/
theorem parseI64_none_of_nondigit (s : String) (c : Char)
    (hc : c ∈ s.data) (hdig : c.isDigit = false)
    (hminus : c ≠ '-') (hplus : c ≠ '+') : parseI64 s = none := by
  have hc2 := hc
  unfold parseI64
  cases hsd : s.data with
  | nil => rfl
  | cons c0 rest =>
    rw [hsd] at hc2
    show (if c0 = '-' then parseI64Core true rest
      else if c0 = '+' then parseI64Core false rest
      else parseI64Core false (c0 :: rest)) = none
    by_cases h0 : c0 = '-'
    · rw [if_pos h0]
      subst h0
      rcases List.mem_cons.mp hc2 with rfl | hmem
      · exact absurd rfl hminus
      · exact parseI64Core_none_of_nondigit true rest c hmem hdig
    · rw [if_neg h0]
      by_cases h1 : c0 = '+'
      · rw [if_pos h1]
        subst h1
        rcases List.mem_cons.mp hc2 with rfl | hmem
        · exact absurd rfl hplus
        · exact parseI64Core_none_of_nondigit false rest c hmem hdig
      · rw [if_neg h1]
        exact parseI64Core_none_of_nondigit false (c0 :: rest) c hc2 hdig

/-- The rendering of a JSON string keeps its surrounding quotes, so it never
parses as an integer. -/
theorem parseI64_render_str_none (s : String) :
    parseI64 (jsonToString (Json.str s)) = none :=
  parseI64_none_of_nondigit ⟨'"' :: (escapeChars s.data ++ ['"'])⟩ '"'
    (List.mem_cons_self '"' _) (by decide) (by decide) (by decide)

/-- The rendering of an f64-arm JSON number (which contains a `.` or an `e`)
never parses as an integer. -/
theorem parseI64_render_float_none (f : String)
    (hf : '.' ∈ f.data ∨ 'e' ∈ f.data) :
    parseI64 (jsonToString (Json.float f)) = none := by
  rcases hf with hf | hf
  · exact parseI64_none_of_nondigit ⟨f.data⟩ '.' hf (by decide) (by decide) (by decide)
  · exact parseI64_none_of_nondigit ⟨f.data⟩ 'e' hf (by decide) (by decide) (by decide)

/-- Claim C10: a chat-shaped value's `msg.sent_at` is accepted only as a bare
JSON integer, because the field's value is rendered to text before the
integer parse: a JSON string (keeping its quotes in the rendering) and a
non-integral JSON number are rejected with `ParseError`, while a bare
integer field (as in `exChat`) is accepted. -/
theorem C10_sent_at_bare_integer_only :
    (∀ v s, (((Json.index v "msg").index "content").index "type").asStr = some "text" →
        (Json.index v "msg").index "sent_at" = Json.str s →
        parse_chat_msg v = .error .ParseError)
    ∧ (∀ v f, (((Json.index v "msg").index "content").index "type").asStr = some "text" →
        (Json.index v "msg").index "sent_at" = Json.float f →
        ('.' ∈ f.data ∨ 'e' ∈ f.data) →
        parse_chat_msg v = .error .ParseError)
    ∧ parse_chat_msg exChat = .ok exChatMsgVal := by
  refine ⟨?_, ?_, rfl⟩
  · intro v s htext hsent
    apply parse_chat_msg_err
    left
    rw [hsent]
    exact parseI64_render_str_none s
  · intro v f htext hsent hdote
    apply parse_chat_msg_err
    left
    rw [hsent]
    exact parseI64_render_float_none f hdote

/-- Witness for C10: the chat event whose `sent_at` is the digits-only JSON
string "1234" is rejected with `ParseError`. -/
theorem C10_sent_at_bare_integer_only_witness :
    parse_chat_msg exStrSentAt = .error .ParseError :=
  C10_sent_at_bare_integer_only.1 exStrSentAt "1234" rfl rfl

/-- A value failing the nested content-type guard is a `ParseError`. -/
theorem parse_chat_msg_not_text (v : Json)
    (htext : ¬ ((((Json.index v "msg").index "content").index "type").asStr = some "text")) :
    parse_chat_msg v = .error .ParseError := by
  unfold parse_chat_msg
  rw [if_neg htext]

/-- Every error `parse_chat_msg` produces is `ParseError`. -/
theorem parse_chat_msg_error_eq (v : Json) (e : KeybaseInternalError)
    (h : parse_chat_msg v = .error e) : e = .ParseError := by
  by_cases htext : (((Json.index v "msg").index "content").index "type").asStr = some "text"
  · cases hts : parseI64 (jsonToString ((Json.index v "msg").index "sent_at")) with
    | none =>
      rw [parse_chat_msg_err v (Or.inl hts)] at h
      injection h with he
      exact he.symm
    | some ts =>
      cases hu : (((Json.index v "msg").index "sender").index "username").asStr with
      | none =>
        rw [parse_chat_msg_err v (Or.inr (Or.inl hu))] at h
        injection h with he
        exact he.symm
      | some u =>
        cases hb : ((((Json.index v "msg").index "content").index "text").index "body").asStr with
        | none =>
          rw [parse_chat_msg_err v (Or.inr (Or.inr (Or.inl hb)))] at h
          injection h with he
          exact he.symm
        | some b =>
          cases hc : ((Json.index v "msg").index "conversation_id").asStr with
          | none =>
            rw [parse_chat_msg_err v (Or.inr (Or.inr (Or.inr hc)))] at h
            injection h with he
            exact he.symm
          | some c =>
            rw [parse_chat_msg_ok v ts u b c htext hts hu hb hc] at h
            exact Except.noConfusion h
  · rw [parse_chat_msg_not_text v htext] at h
    injection h with he
    exact he.symm

/-- `create_chat_msg_reply` propagates the parse error unchanged. -/
theorem create_chat_msg_reply_error (v : Json) (e : KeybaseInternalError)
    (h : create_chat_msg_reply v = .error e) : parse_chat_msg v = .error e := by
  unfold create_chat_msg_reply at h
  cases hp : parse_chat_msg v with
  | ok a =>
    rw [hp] at h
    exact Except.noConfusion h
  | error e2 =>
    rw [hp] at h
    have h2 : (Except.error e2 : Except KeybaseInternalError KeybaseReply) = .error e := h
    injection h2 with he
    rw [he]

/-- Every error `parse_channels` produces is `ParseError`. -/
theorem parse_channels_error_eq (xs : List Json) (e : KeybaseInternalError)
    (h : parse_channels xs = .error e) : e = .ParseError := by
  by_cases hall : ∀ c ∈ xs, channelElemOk c
  · rw [parse_channels_ok xs hall] at h
    exact Except.noConfusion h
  · rw [parse_channels_err xs hall] at h
    injection h with he
    exact he.symm

/-- Every error `create_chat_msg_list_reply` produces is `ParseError`. -/
theorem create_chat_msg_list_reply_error (v : Json) (e : KeybaseInternalError)
    (h : create_chat_msg_list_reply v = .error e) : e = .ParseError := by
  rcases create_chat_msg_list_reply_shapes v with ⟨xs, ha, heq⟩ | heq
  · rw [heq] at h
    exact Except.noConfusion h
  · rw [heq] at h
    injection h with he
    exact he.symm

/-- The dispatcher only selects the channel-list handler when
`result.conversations` is an array. -/
theorem get_msg_type_channel_list_inv (v : Json)
    (h : get_msg_type v = .ChannelList) :
    ((Json.index v "result").index "conversations").is_array = true := by
  unfold get_msg_type at h
  split_ifs at h with h1 h2 h3
  exact h3

/-- The `InvalidMessageFormat` arm of `create_channel_list_reply` is dead
code through the dispatcher: classification never produces it. -/
theorem to_keybase_msg_never_invalid_format (v : Json) :
    to_keybase_msg v ≠ .error .InvalidMessageFormat := by
  intro h
  rw [to_keybase_msg_branches] at h
  cases hg : get_msg_type v <;> rw [hg] at h
  case ChatMsg =>
    have h2 : create_chat_msg_reply v = .error .InvalidMessageFormat := h
    have hp := create_chat_msg_reply_error v _ h2
    have := parse_chat_msg_error_eq v _ hp
    exact absurd this (by decide)
  case ChatMsgList =>
    have h2 : create_chat_msg_list_reply v = .error .InvalidMessageFormat := h
    have := create_chat_msg_list_reply_error v _ h2
    exact absurd this (by decide)
  case ChannelList =>
    have hca := get_msg_type_channel_list_inv v hg
    rw [Json.is_array] at hca
    obtain ⟨convs, ha⟩ := Option.isSome_iff_exists.mp hca
    have h2 : create_channel_list_reply v = .error .InvalidMessageFormat := h
    rw [create_channel_list_reply_of_arr v convs ha] at h2
    cases hp : parse_channels convs with
    | ok chs =>
      rw [hp] at h2
      exact Except.noConfusion h2
    | error e2 =>
      rw [hp] at h2
      have h3 : (Except.error e2 : Except KeybaseInternalError KeybaseReply)
          = .error .InvalidMessageFormat := h2
      injection h3 with he
      rw [he] at hp
      have := parse_channels_error_eq convs _ hp
      exact absurd this (by decide)
  case Unknown =>
    have h2 : (Except.error KeybaseInternalError.UnknownMessage :
        Except KeybaseInternalError KeybaseReply) = .error .InvalidMessageFormat := h
    injection h2 with he
    exact absurd he (by decide)

/-- Run-model dispatch: the chat branch. -/
theorem to_keybase_msg_run_of_chat (v : Json) (h : get_msg_type v = .ChatMsg) :
    to_keybase_msg_run v = create_chat_msg_reply_run v := by
  unfold to_keybase_msg_run
  rw [h]

/-- Run-model dispatch: the batch branch. -/
theorem to_keybase_msg_run_of_messages (v : Json) (h : get_msg_type v = .ChatMsgList) :
    to_keybase_msg_run v = create_chat_msg_list_reply_run v := by
  unfold to_keybase_msg_run
  rw [h]

/-- Successful extraction in the run model: all four fields well-typed and
the timestamp representable by chrono. -/
theorem parse_chat_msg_run_ok (v : Json) (ts : Int) (dt : NaiveDateTime) (u b c : String)
    (htext : (((Json.index v "msg").index "content").index "type").asStr = some "text")
    (hts : parseI64 (jsonToString ((Json.index v "msg").index "sent_at")) = some ts)
    (hu : (((Json.index v "msg").index "sender").index "username").asStr = some u)
    (hb : ((((Json.index v "msg").index "content").index "text").index "body").asStr = some b)
    (hc : ((Json.index v "msg").index "conversation_id").asStr = some c)
    (hdt : chrono_from_timestamp_opt ts = some dt) :
    parse_chat_msg_run v = .ok
      { utc_timestamp := dt, channel := u, conversation_id := c, text := strTrim b } := by
  unfold parse_chat_msg_run
  rw [if_pos htext]
  simp only [hts, hu, hb, hc, hdt]

/-- Failing extraction in the run model: a missing or mistyped field is a
`ParseError`, reached before the chrono call. -/
theorem parse_chat_msg_run_err (v : Json)
    (hbad : parseI64 (jsonToString ((Json.index v "msg").index "sent_at")) = none
      ∨ (((Json.index v "msg").index "sender").index "username").asStr = none
      ∨ ((((Json.index v "msg").index "content").index "text").index "body").asStr = none
      ∨ ((Json.index v "msg").index "conversation_id").asStr = none) :
    parse_chat_msg_run v = .err .ParseError := by
  unfold parse_chat_msg_run
  by_cases htext : (((Json.index v "msg").index "content").index "type").asStr = some "text"
  · rw [if_pos htext]
    rcases hbad with h | h | h | h
    · simp only [h]
    · cases hts : parseI64 (jsonToString ((Json.index v "msg").index "sent_at")) <;>
        simp only [h]
    · cases hts : parseI64 (jsonToString ((Json.index v "msg").index "sent_at")) <;>
        cases hu : (((Json.index v "msg").index "sender").index "username").asStr <;>
        simp only [h]
    · cases hts : parseI64 (jsonToString ((Json.index v "msg").index "sent_at")) <;>
        cases hu : (((Json.index v "msg").index "sender").index "username").asStr <;>
        cases hb : ((((Json.index v "msg").index "content").index "text").index "body").asStr <;>
        simp only [h]
  · rw [if_neg htext]

/-- The panic in the run model: all four fields extract, but the parsed
timestamp lies outside chrono's representable range. -/
theorem parse_chat_msg_run_panic (v : Json) (ts : Int) (u b c : String)
    (htext : (((Json.index v "msg").index "content").index "type").asStr = some "text")
    (hts : parseI64 (jsonToString ((Json.index v "msg").index "sent_at")) = some ts)
    (hu : (((Json.index v "msg").index "sender").index "username").asStr = some u)
    (hb : ((((Json.index v "msg").index "content").index "text").index "body").asStr = some b)
    (hc : ((Json.index v "msg").index "conversation_id").asStr = some c)
    (hdt : chrono_from_timestamp_opt ts = none) :
    parse_chat_msg_run v = .panic := by
  unfold parse_chat_msg_run
  rw [if_pos htext]
  simp only [hts, hu, hb, hc, hdt]

/-- Counterexample for C2: a single-chat value whose `sent_at` (10^13)
parses as an integer and whose other fields are all well-typed strings, yet
classification panics the thread inside chrono instead of yielding a
`ChatMessage`. -/
theorem C2_chrono_panic_counterexample :
    to_keybase_msg_run exChronoPanic = .panic
    ∧ parseI64 (jsonToString ((Json.index exChronoPanic "msg").index "sent_at"))
        = some 10000000000000
    ∧ ∀ m : ChatMsg, RunResult.panic ≠ RunResult.ok (KeybaseReply.ChatMsgReply m) :=
  ⟨rfl, rfl, fun _ h => RunResult.noConfusion h⟩

/-- Amendment of C2: for every value of the single-chat shape, if the
timestamp parses as an integer that chrono can represent and the username,
body and conversation id are strings, classification yields a `ChatMessage`
matching the source fields exactly (body trimmed, timestamp the
deterministic epoch-seconds UTC instant); with any field missing or
mistyped it yields `ParseError` and no message; but if the timestamp parses
to an integer outside chrono's range (the other fields well-typed), the
thread panics and nothing is yielded. -/
theorem C2_single_chat_amended (v : Json)
    (hchat : (Json.index v "type").asStr = some "chat")
    (htext : (((Json.index v "msg").index "content").index "type").asStr = some "text") :
    (∀ ts dt u b c,
        parseI64 (jsonToString ((Json.index v "msg").index "sent_at")) = some ts →
        chrono_from_timestamp_opt ts = some dt →
        (((Json.index v "msg").index "sender").index "username").asStr = some u →
        ((((Json.index v "msg").index "content").index "text").index "body").asStr = some b →
        ((Json.index v "msg").index "conversation_id").asStr = some c →
        to_keybase_msg_run v = .ok (.ChatMsgReply
          { utc_timestamp := dt, channel := u, conversation_id := c, text := strTrim b }))
    ∧ ((parseI64 (jsonToString ((Json.index v "msg").index "sent_at")) = none
        ∨ (((Json.index v "msg").index "sender").index "username").asStr = none
        ∨ ((((Json.index v "msg").index "content").index "text").index "body").asStr = none
        ∨ ((Json.index v "msg").index "conversation_id").asStr = none) →
        to_keybase_msg_run v = .err .ParseError)
    ∧ (∀ ts u b c,
        parseI64 (jsonToString ((Json.index v "msg").index "sent_at")) = some ts →
        chrono_from_timestamp_opt ts = none →
        (((Json.index v "msg").index "sender").index "username").asStr = some u →
        ((((Json.index v "msg").index "content").index "text").index "body").asStr = some b →
        ((Json.index v "msg").index "conversation_id").asStr = some c →
        to_keybase_msg_run v = .panic) := by
  have hroute : to_keybase_msg_run v = create_chat_msg_reply_run v :=
    to_keybase_msg_run_of_chat v (get_msg_type_of_chat v hchat htext)
  refine ⟨?_, ?_, ?_⟩
  · intro ts dt u b c hts hdt hu hb hc
    rw [hroute]
    unfold create_chat_msg_reply_run
    rw [parse_chat_msg_run_ok v ts dt u b c htext hts hu hb hc hdt]
  · intro hbad
    rw [hroute]
    unfold create_chat_msg_reply_run
    rw [parse_chat_msg_run_err v hbad]
  · intro ts u b c hts hdt hu hb hc
    rw [hroute]
    unfold create_chat_msg_reply_run
    rw [parse_chat_msg_run_panic v ts u b c htext hts hu hb hc hdt]

/-- Witness for the amended C2 at the concrete chat event `exChat` (epoch
1234 is representable; the body " hi " is trimmed to "hi"). -/
theorem C2_single_chat_amended_witness :
    to_keybase_msg_run exChat = .ok (.ChatMsgReply
      { utc_timestamp := NaiveDateTime.from_timestamp 1234
      , channel := "alice", conversation_id := "c1", text := strTrim " hi " }) :=
  (C2_single_chat_amended exChat rfl rfl).1 1234 (NaiveDateTime.from_timestamp 1234)
    "alice" " hi " "c1" rfl rfl rfl rfl rfl

/-- When no element panics, the run-model batch loop keeps exactly the
elements that parse, in their original relative order. -/
theorem buildMsgList_run_eq (xs : List Json)
    (h : ∀ m ∈ xs, parse_chat_msg_run m ≠ .panic) :
    buildMsgList_run xs
      = some (xs.filterMap fun m => (parse_chat_msg_run m).toOk) := by
  induction xs with
  | nil => rfl
  | cons m rest ih =>
    have hm := h m (List.mem_cons_self m rest)
    have hrest := ih (fun x hx => h x (List.mem_cons_of_mem m hx))
    unfold buildMsgList_run
    cases hp : parse_chat_msg_run m with
    | panic => exact absurd hp hm
    | err e =>
      rw [hrest]
      simp [List.filterMap_cons, hp, RunResult.toOk]
    | ok a =>
      rw [hrest]
      simp [List.filterMap_cons, hp, RunResult.toOk]

/-- An element that panics aborts the whole run-model batch loop. -/
theorem buildMsgList_run_panic (xs : List Json)
    (h : ∃ m ∈ xs, parse_chat_msg_run m = .panic) :
    buildMsgList_run xs = none := by
  induction xs with
  | nil =>
    rcases h with ⟨x, hx, _⟩
    exact absurd hx (List.not_mem_nil x)
  | cons m rest ih =>
    rcases h with ⟨x, hx, hpx⟩
    rcases List.mem_cons.mp hx with rfl | hmem
    · unfold buildMsgList_run
      rw [hpx]
    · unfold buildMsgList_run
      cases hp : parse_chat_msg_run m with
      | panic => rfl
      | err e => exact ih ⟨x, hmem, hpx⟩
      | ok a => rw [ih ⟨x, hmem, hpx⟩]

/-- `create_chat_msg_list_reply_run` on a value whose `result.messages` is
an array runs the panic-aware element loop. -/
theorem create_chat_msg_list_reply_run_of_arr (v : Json) (xs : List Json)
    (harr : (Json.index v "result").index "messages" = Json.arr xs) :
    create_chat_msg_list_reply_run v =
      match buildMsgList_run xs with
      | none => .panic
      | some msgs => .ok (.ChatMsgListReply msgs) := by
  unfold create_chat_msg_list_reply_run
  rw [harr]
  simp only [Json.asArray]

/-- Counterexample for C3: a batch holding one well-formed element and one
element whose `sent_at` parses but is outside chrono's range does not
succeed - the loop panics the thread and no batch is produced. -/
theorem C3_chrono_panic_counterexample :
    to_keybase_msg_run exBatchPanic = .panic
    ∧ ∀ msgs, RunResult.panic ≠ RunResult.ok (KeybaseReply.ChatMsgListReply msgs) :=
  ⟨rfl, fun _ h => RunResult.noConfusion h⟩

/-- Amendment of C3: for every batch input (`result.messages` an array, not
chat-shaped) none of whose elements panics, classification succeeds and
yields exactly the well-formed elements in their original relative order -
`filterMap` of the element run - so extraction failures are skipped, their
number and positions never affect success, and the batch is emitted even
when empty; but if any element extracts all four fields with a timestamp
outside chrono's range, the thread panics and no batch is produced. -/
theorem C3_batch_amended (v : Json) (xs : List Json)
    (hnc : ¬((Json.index v "type").asStr = some "chat"
        ∧ (((Json.index v "msg").index "content").index "type").asStr = some "text"))
    (harr : (Json.index v "result").index "messages" = Json.arr xs) :
    ((∀ m ∈ xs, parse_chat_msg_run m ≠ .panic) →
        to_keybase_msg_run v = .ok (.ChatMsgListReply
          (xs.filterMap fun m => (parse_chat_msg_run m).toOk)))
    ∧ ((∃ m ∈ xs, parse_chat_msg_run m = .panic) →
        to_keybase_msg_run v = .panic) := by
  have hm : ((Json.index v "result").index "messages").is_array = true := by
    rw [harr]; rfl
  have hroute : to_keybase_msg_run v = create_chat_msg_list_reply_run v :=
    to_keybase_msg_run_of_messages v (get_msg_type_of_messages v hnc hm)
  constructor
  · intro hnp
    rw [hroute, create_chat_msg_list_reply_run_of_arr v xs harr,
      buildMsgList_run_eq xs hnp]
  · intro hp
    rw [hroute, create_chat_msg_list_reply_run_of_arr v xs harr,
      buildMsgList_run_panic xs hp]

/-- Witness for the amended C3 at a concrete panic-free batch with one
well-formed and one malformed element: exactly the well-formed message
survives. -/
theorem C3_batch_amended_witness :
    to_keybase_msg_run exBatch = .ok (.ChatMsgListReply [exChatMsgVal]) := by
  have h := (C3_batch_amended exBatch [exGoodElem, exBadElem] (by decide) rfl).1 (by decide)
  simpa using h

/-- A value whose `as_array` succeeds is that array. -/
theorem Json.eq_arr_of_asArray :
    ∀ (w : Json) (xs : List Json), w.asArray = some xs → w = Json.arr xs
  | .arr ys, xs, h => by
      injection h with h2
      rw [h2]
  | .null, _, h => Option.noConfusion h
  | .bool _, _, h => Option.noConfusion h
  | .int _, _, h => Option.noConfusion h
  | .float _, _, h => Option.noConfusion h
  | .str _, _, h => Option.noConfusion h
  | .obj _, _, h => Option.noConfusion h

/-- Amendment of C6: every `ChatMessage` that classification produces has
`channel` and `conversationId` equal to the strings read verbatim from the
classified value itself - from `v`'s `msg.sender.username` and
`msg.conversation_id` fields when it is a single chat reply, and from those
fields of an element of `v`'s own `result.messages` array when it is a
batch element; the code never checks these strings for non-emptiness, so
they may be empty. -/
theorem C6_fields_from_source_amended (v : Json) (m : ChatMsg) :
    (to_keybase_msg v = .ok (.ChatMsgReply m) →
        (((Json.index v "msg").index "sender").index "username").asStr = some m.channel
        ∧ ((Json.index v "msg").index "conversation_id").asStr = some m.conversation_id)
    ∧ (∀ msgs, to_keybase_msg v = .ok (.ChatMsgListReply msgs) → m ∈ msgs →
        ∃ xs, (Json.index v "result").index "messages" = Json.arr xs
          ∧ ∃ e, e ∈ xs ∧ parse_chat_msg e = .ok m
            ∧ (((Json.index e "msg").index "sender").index "username").asStr = some m.channel
            ∧ ((Json.index e "msg").index "conversation_id").asStr = some m.conversation_id) := by
  constructor
  · intro h
    rw [to_keybase_msg_branches] at h
    cases hg : get_msg_type v <;> rw [hg] at h
    case ChannelList =>
      rcases create_channel_list_reply_shapes v with ⟨chs, heq⟩ | ⟨e, heq⟩ <;>
        rw [heq] at h
      · simp at h
      · exact Except.noConfusion h
    case ChatMsg =>
      rcases create_chat_msg_reply_shapes v with ⟨a, hp, heq⟩ | ⟨e, heq⟩ <;>
        rw [heq] at h
      · obtain rfl : a = m := by simpa using h
        exact parse_chat_msg_fields v a hp
      · exact Except.noConfusion h
    case ChatMsgList =>
      rcases create_chat_msg_list_reply_shapes v with ⟨xs, ha, heq⟩ | heq <;>
        rw [heq] at h
      · simp at h
      · exact Except.noConfusion h
    case Unknown => exact Except.noConfusion h
  · intro msgs h hmem
    rw [to_keybase_msg_branches] at h
    cases hg : get_msg_type v <;> rw [hg] at h
    case ChannelList =>
      rcases create_channel_list_reply_shapes v with ⟨chs, heq⟩ | ⟨e, heq⟩ <;>
        rw [heq] at h
      · simp at h
      · exact Except.noConfusion h
    case ChatMsg =>
      rcases create_chat_msg_reply_shapes v with ⟨a, hp, heq⟩ | ⟨e, heq⟩ <;>
        rw [heq] at h
      · simp at h
      · exact Except.noConfusion h
    case ChatMsgList =>
      rcases create_chat_msg_list_reply_shapes v with ⟨xs, ha, heq⟩ | heq <;>
        rw [heq] at h
      · obtain rfl : buildMsgList xs = msgs := by simpa using h
        refine ⟨xs, Json.eq_arr_of_asArray _ xs ha, ?_⟩
        rw [buildMsgList_eq_filterMap] at hmem
        rcases List.mem_filterMap.mp hmem with ⟨e, he, hfe⟩
        cases hp : parse_chat_msg e with
        | ok a =>
          rw [hp] at hfe
          obtain rfl : a = m := by simpa [Except.toOption] using hfe
          obtain ⟨h1, h2⟩ := parse_chat_msg_fields e a hp
          exact ⟨e, he, hp, h1, h2⟩
        | error err =>
          rw [hp] at hfe
          simp [Except.toOption] at hfe
      · exact Except.noConfusion h
    case Unknown => exact Except.noConfusion h

/-- Witness for the amended C6 at the concrete chat event `exChat`: its
classified message's channel and conversation id are `exChat`'s own
username and conversation_id fields. -/
theorem C6_fields_from_source_amended_witness :
    (((Json.index exChat "msg").index "sender").index "username").asStr
        = some exChatMsgVal.channel
    ∧ ((Json.index exChat "msg").index "conversation_id").asStr
        = some exChatMsgVal.conversation_id :=
  (C6_fields_from_source_amended exChat exChatMsgVal).1 rfl
